import Mathlib

/-!
Shallow embedding of Sujitha248/job_search_app1 (src/app.py and
src/fetch_job_details.py).

app.py is a Streamlit page: on a click of the search button it calls
fetch_jobs (an HTTP GET against the JSearch REST API followed by JSON
decoding), and either stores/saves the cleaned live results or falls back
to a cached CSV file.  The click handler (lines 68-138 of app.py) is
modelled as the pure function searchClick over an explicit environment:
the API outcome, the fallback file state and the working directory are
inputs; the session variable, the files written, the messages shown, the
HTTP requests issued and any uncaught exception are outputs.  The table
displayed to the user (app.py lines 141-146) is exactly the session
variable job_data, so "displayed result" is formalised as the session
field of the handler output.

fetch_job_details.py is a straight-line script; it is modelled by
fetch_job_details_run, including the resolution of the names its
expressions mention, because its headers dictionary (line 13) uses an
unquoted, never-assigned name.
-/

namespace JobSearchApp

/-- One raw job object of the JSON response of the JSearch API, as accessed
by fetch_jobs (app.py lines 50-61).  A field is `none` when the key is
absent from the object, mirroring Python `job.get(key, default)`. -/
structure RawExp where
  experience_level : Option String
deriving DecidableEq, Repr

structure RawJob where
  job_title : Option String
  employer_name : Option String
  job_city : Option String
  job_posted_at_datetime_utc : Option String
  job_industry : Option String
  job_required_experience : Option RawExp
  job_employment_type : Option String
  job_apply_link : Option String
deriving DecidableEq, Repr

/-- Outcome of the HTTP GET plus raise_for_status plus json() in fetch_jobs
(app.py lines 45-47): either some exception was raised (err carries its
str()), or a decoded JSON body whose "data" key holds the given list
(`none` when the "data" key is absent, mirroring `data.get("data", [])`). -/
inductive ApiResult where
  | err (e : String)
  | ok (data : Option (List RawJob))
deriving Repr

/-- Messages surfaced in the UI via st.error / st.success / st.warning. -/
inductive Msg where
  | error (s : String)
  | success (s : String)
  | warning (s : String)
deriving DecidableEq, Repr

def apiUrl : String := "https://jsearch.p.rapidapi.com/search"

/-- The record built for one job (app.py lines 52-61): a Python dict,
embedded as an association list in insertion order. -/
def mkJobRecord (job : RawJob) : List (String × String) :=
  [("Job Title", job.job_title.getD "Not specified"),
   ("Company", job.employer_name.getD "Not specified"),
   ("Location", job.job_city.getD "Not specified"),
   ("Posted", job.job_posted_at_datetime_utc.getD "Not specified"),
   ("Industry", job.job_industry.getD "Not specified"),
   ("Experience",
     (match job.job_required_experience with
      | none => "Not specified"
      | some e => e.experience_level.getD "Not specified")),
   ("Job Type", job.job_employment_type.getD "Not specified"),
   ("Apply Link",
     "<a href=\x27" ++ job.job_apply_link.getD "#" ++
       "\x27 target=\x27_blank\x27>Apply Here</a>")]

/-- fetch_jobs (app.py lines 38-65).  One request is always issued (the
handler records it); on any exception the function shows one st.error
message and returns None, otherwise it returns the list of records built
from the "data" list of the response. -/
def fetch_jobs (api : ApiResult) :
    Option (List (List (String × String))) × List Msg :=
  match api with
  | .err e => (none, [Msg.error ("Error fetching jobs: " ++ e)])
  | .ok data => (some ((data.getD []).map mkJobRecord), [])

/-- Library attributes and functions called inside the body of fetch_jobs
(app.py lines 44-64), transcribed in source order; used to settle the
claim about the fetching mechanism. -/
def fetchJobsLibCalls : List String :=
  ["requests.get", "response.raise_for_status", "response.json",
   "data.get", "job.get", "exp_info.get", "st.error"]

/-- One row of the pandas DataFrame (its eight columns).  A cell is `none`
when it is NaN/NaT, mirroring pandas missing values. -/
structure Row where
  title : Option String
  company : Option String
  city : Option String
  posted : Option String
  industry : Option String
  experience : Option String
  jobType : Option String
  applyLink : Option String
deriving DecidableEq, Repr

/-- pd.DataFrame(jobs): each record dict becomes a row; a column missing
from the dict would be NaN (cannot happen for records of mkJobRecord). -/
def recordToRow (rec : List (String × String)) : Row :=
  { title := (rec.lookup "Job Title"),
    company := (rec.lookup "Company"),
    city := (rec.lookup "Location"),
    posted := (rec.lookup "Posted"),
    industry := (rec.lookup "Industry"),
    experience := (rec.lookup "Experience"),
    jobType := (rec.lookup "Job Type"),
    applyLink := (rec.lookup "Apply Link") }

/-- Python str.title(): an alphabetic character is uppercased right after a
non-alphabetic character (or at the start) and lowercased otherwise. -/
def pyTitleAux : List Char → Bool → List Char
  | [], _ => []
  | c :: cs, prevAlpha =>
    if c.isAlpha then
      (if prevAlpha then c.toLower else c.toUpper) :: pyTitleAux cs true
    else
      c :: pyTitleAux cs false

def pyTitle (s : String) : String := ⟨pyTitleAux s.data false⟩

/-- Python str.strip(): drop whitespace from both ends. -/
def pyStrip (s : String) : String :=
  ⟨((s.data.dropWhile Char.isWhitespace).reverse.dropWhile
      Char.isWhitespace).reverse⟩

/-- The per-cell cleaning `.fillna("Not specified").astype(str).str.strip().str.title()`
applied to the six text columns (app.py lines 77-78 and 96-103). -/
def cleanCell (c : Option String) : Option String :=
  some (pyTitle (pyStrip (c.getD "Not specified")))

def cleanRow (r : Row) : Row :=
  { r with
    title := cleanCell r.title,
    company := cleanCell r.company,
    city := cleanCell r.city,
    industry := cleanCell r.industry,
    experience := cleanCell r.experience,
    jobType := cleanCell r.jobType }

/-- drop_duplicates with keep="first": keep the first row for each value of
the key. -/
def dropDupBy {κ : Type} [DecidableEq κ] (key : Row → κ) :
    List Row → List κ → List Row
  | [], _ => []
  | r :: rs, seen =>
    if key r ∈ seen then dropDupBy key rs seen
    else r :: dropDupBy key rs (key r :: seen)

/-- df.drop_duplicates() on all columns (app.py line 76). -/
def dropDupAll (df : List Row) : List Row := dropDupBy id df []

/-- Key of drop_duplicates(subset=["Job Title", "Company", "Location", "Posted"])
(app.py line 105). -/
def key4 (r : Row) : Option String × Option String × Option String × Option String :=
  (r.title, r.company, r.city, r.posted)

def lowerStr (s : String) : String := ⟨s.data.map Char.toLower⟩

def startsWithSeg : List Char → List Char → Bool
  | [], _ => true
  | _ :: _, [] => false
  | a :: as, b :: bs => (a = b) && startsWithSeg as bs

def hasSeg (needle : List Char) : List Char → Bool
  | [] => startsWithSeg needle []
  | c :: cs => startsWithSeg needle (c :: cs) || hasSeg needle cs

/-- A regex oracle models `re.compile(pat, re.IGNORECASE)` followed by
`re.search`, which is what pandas `.str.contains(pat, case=False)` does
with its default regex=True: `none` when the pattern does not compile
(re.error, e.g. on "c++" or "("), otherwise the compiled pattern's match
function on a cell string. -/
def RegexOracle : Type := String → Option (String → Bool)

/-- Applying a compiled pattern to one cell, with na=False: NaN cells are
excluded. -/
def cellMatch (f : String → Bool) (cell : Option String) : Bool :=
  match cell with
  | none => false
  | some s => f s

/-- The concrete oracle for metachar-free patterns: every pattern
compiles, and matching is case-insensitive substring containment — the
semantics Python's re gives literal text.  It instantiates environments
whose filter inputs are literal. -/
def literalSearch : RegexOracle :=
  fun pat => some (fun hay => hasSeg (lowerStr pat).data (lowerStr hay).data)

/-- The five text inputs / selectboxes of the page (app.py lines 18-31). -/
structure Ui where
  job_title : String
  location : String
  industry : String
  experience_filter : String
  job_type_filter : String

/-- One `.str.contains(pat, case=False, na=False)` filter of the fallback
branch: when the filter is active its pattern is compiled first — pandas
compiles the regex on the call, before (and regardless of) the rows — so
an invalid pattern raises re.error; otherwise the rows whose cell the
compiled pattern matches are kept. -/
def filterStep (rs : RegexOracle) (active : Bool) (pat : String)
    (proj : Row → Option String) (df : List Row) :
    Except String (List Row) :=
  if active then
    match rs pat with
    | none => Except.error ("re.error: " ++ pat)
    | some f => Except.ok (df.filter (fun r => cellMatch f (proj r)))
  else Except.ok df

/-- The filter cascade of the fallback branch (app.py lines 108-129), in
source order: a text filter is active when its input is a non-empty
string, a selectbox filter when its value is not "All"; the first active
filter whose pattern does not compile raises, aborting the rest. -/
def applyFilters (rs : RegexOracle) (ui : Ui) (df : List Row) :
    Except String (List Row) :=
  (filterStep rs (ui.job_title != "") ui.job_title Row.title df).bind fun d1 =>
  (filterStep rs (ui.location != "") ui.location Row.city d1).bind fun d2 =>
  (filterStep rs (ui.industry != "") ui.industry Row.industry d2).bind fun d3 =>
  (filterStep rs (ui.experience_filter != "All") ui.experience_filter
      Row.experience d3).bind fun d4 =>
  filterStep rs (ui.job_type_filter != "All") ui.job_type_filter Row.jobType d4

/-- Cleaning pipeline of the live branch (app.py lines 76-80):
drop_duplicates on all columns, clean the six text columns, coerce Posted
with pd.to_datetime(errors="coerce") — modelled by the abstract normaliser
parseDate, `none` standing for NaT — then replace "None" by
"Not specified" in Experience. -/
def liveClean (parseDate : String → Option String)
    (js : List (List (String × String))) : List Row :=
  let df := js.map recordToRow
  let df := dropDupAll df
  let df := df.map cleanRow
  let df := df.map (fun r => { r with posted := r.posted.bind parseDate })
  df.map (fun r =>
    { r with experience :=
        if r.experience = some "None" then some "Not specified"
        else r.experience })

/-- Cleaning pipeline of the fallback branch (app.py lines 96-105): clean
the six text columns, then drop_duplicates on the four-column subset. -/
def fallbackClean (df : List Row) : List Row :=
  dropDupBy key4 (df.map cleanRow) []

def fallbackFileName : String := "fallback_jobs.csv"

/-- os.path.join(os.getcwd(), "fallback_jobs.csv") for the relative file
name used here. -/
def pathJoin (cwd f : String) : String := cwd ++ "/" ++ f

/-- The environment a click of the search button runs in.  fallbackFile is
`none` when os.path.exists is false; `some (Except.error e)` when the file
exists but pd.read_csv of it (or the column access while cleaning a
malformed table) raises; `some (Except.ok rows)` when it reads as a table
with the eight expected columns.  reSearch is the regex oracle the filter
cascade compiles its patterns with. -/
structure Env where
  api : ApiResult
  cwd : String
  fallbackFile : Option (Except String (List Row))
  parseDate : String → Option String
  reSearch : RegexOracle

/-- Observable outcome of one click: the session variable job_data after
the handler, the files written as (path, contents) pairs, the messages
shown, the HTTP requests issued, and the exception text when one
propagates out uncaught. -/
structure HandlerOut where
  session : Option (List Row)
  written : List (String × List Row)
  msgs : List Msg
  requests : List String
  uncaught : Option String

/-- The live branch (app.py lines 72-87): clean, store in the session,
write the fallback CSV, show a success message. -/
def liveBranch (env : Env) (js : List (List (String × String)))
    (msgs : List Msg) (reqs : List String) : HandlerOut :=
  let df := liveClean env.parseDate js
  { session := some df,
    written := [(pathJoin env.cwd fallbackFileName, df)],
    msgs := msgs ++ [Msg.success "✅ Job results saved."],
    requests := reqs,
    uncaught := none }

/-- The fallback branch (app.py lines 89-138). -/
def fallbackBranch (ui : Ui) (env : Env) (st : Option (List Row))
    (msgs : List Msg) (reqs : List String) : HandlerOut :=
  match env.fallbackFile with
  | none =>
    { session := st, written := [],
      msgs := msgs ++ [Msg.warning "⚠️ No fallback file found."],
      requests := reqs, uncaught := none }
  | some (Except.error e) =>
    { session := st, written := [], msgs := msgs,
      requests := reqs, uncaught := some e }
  | some (Except.ok rows) =>
    match applyFilters env.reSearch ui (fallbackClean rows) with
    | Except.error e =>
      { session := st, written := [], msgs := msgs,
        requests := reqs, uncaught := some e }
    | Except.ok filtered =>
      if filtered.isEmpty then
        { session := st, written := [],
          msgs := msgs ++ [Msg.warning "😕 No matching jobs found in fallback."],
          requests := reqs, uncaught := none }
      else
        { session := some filtered, written := [],
          msgs := msgs ++
            [Msg.success "⚠️ Loaded from fallback — results may be outdated but cleaned and filtered."],
          requests := reqs, uncaught := none }

/-- One click of the search button (app.py lines 68-138).  st is the
session variable job_data before the click.  `if jobs:` of line 72 is
Python truthiness: None and the empty list both take the fallback
branch. -/
def searchClick (ui : Ui) (env : Env) (st : Option (List Row)) : HandlerOut :=
  match (fetch_jobs env.api).1 with
  | none => fallbackBranch ui env st (fetch_jobs env.api).2 [apiUrl]
  | some js =>
    if js.isEmpty then fallbackBranch ui env st (fetch_jobs env.api).2 [apiUrl]
    else liveBranch env js (fetch_jobs env.api).2 [apiUrl]

/-- The live fetch succeeded with at least one record, i.e. `if jobs:` of
app.py line 72 is true. -/
def liveOk (env : Env) : Prop :=
  ∃ j js, (fetch_jobs env.api).1 = some (j :: js)

/-- The fallback file exists, reads cleanly, every active filter pattern
compiles, and at least one row survives cleaning and the filters (the
branch of app.py line 132). -/
def fallbackOk (ui : Ui) (env : Env) : Prop :=
  ∃ rows filtered, env.fallbackFile = some (Except.ok rows) ∧
    applyFilters env.reSearch ui (fallbackClean rows) = Except.ok filtered ∧
    filtered ≠ []

/-! fetch_job_details.py.  The script is straight-line: it assigns the
names requests, json, API_KEY, job_id, url (lines 1-9), then evaluates the
headers dict literal (lines 12-14) whose value expression is the bare name
rEabbc4ElMakoLp2INsVxDOgdPSAYGB6 — never assigned, since line 5 assigns
the quoted string of the same spelling to API_KEY — then sends the GET
request (line 17) and prints either the JSON body (status 200) or a
failure line (lines 20-26).  Name resolution is embedded explicitly so
that evaluating an unbound name is visible as a NameError. -/

/-- Names assigned at module level before line 13 of fetch_job_details.py. -/
def fjdDefinedNames : List String := ["requests", "json", "API_KEY", "job_id", "url"]

/-- The bare name used as the value of the "apikey" entry of headers
(fetch_job_details.py line 13). -/
def headersKeyExprName : String := "rEabbc4ElMakoLp2INsVxDOgdPSAYGB6"

def nameBound (n : String) (envNames : List String) : Bool := envNames.contains n

def fjdUrl : String := "https://api.coresignal.com/cdapi/v2/job_base/collect/314351456"

/-- What the HTTP response would be, were the request reached. -/
structure HttpResp where
  status_code : Nat
  text : String

/-- Result of running fetch_job_details.py: an uncaught NameError, or the
success print of the JSON body, or the failure print. -/
inductive FjdResult where
  | uncaughtNameError (n : String)
  | successPrint (body : String)
  | failurePrint (code : Nat) (body : String)
deriving DecidableEq, Repr

/-- Running fetch_job_details.py top to bottom; the second component is
the list of HTTP requests the run issues. -/
def fetch_job_details_run (resp : HttpResp) : FjdResult × List String :=
  if nameBound headersKeyExprName fjdDefinedNames then
    if resp.status_code = 200 then (FjdResult.successPrint resp.text, [fjdUrl])
    else (FjdResult.failurePrint resp.status_code resp.text, [fjdUrl])
  else (FjdResult.uncaughtNameError headersKeyExprName, [])

/-- The eight keys of every record built by fetch_jobs, in insertion
order. -/
def jobRecordKeys : List String :=
  ["Job Title", "Company", "Location", "Posted", "Industry", "Experience",
   "Job Type", "Apply Link"]

/-- Modelled from the spec (section 3): the job-posting fields the
specification lists — "title, company, location, posting date, skills,
apply link".  Named for comparison with jobRecordKeys, the fields the code
actually produces. -/
def specJobPostingFields : List String :=
  ["title", "company", "location", "posting date", "skills", "apply link"]

/-! Concrete sample inputs used by witnesses and counterexamples. -/

/-- A raw job object all of whose keys are absent. -/
def rawNone : RawJob :=
  { job_title := none, employer_name := none, job_city := none,
    job_posted_at_datetime_utc := none, job_industry := none,
    job_required_experience := none, job_employment_type := none,
    job_apply_link := none }

/-- One well-formed cached row. -/
def rowEng : Row :=
  { title := some "Engineer", company := some "Acme", city := some "India",
    posted := some "2024-01-01", industry := some "Tech",
    experience := some "Entry level", jobType := some "Full-time",
    applyLink := some "x" }

/-- Inputs whose job-title filter matches no cached row. -/
def uiZzz : Ui :=
  { job_title := "zzz", location := "", industry := "",
    experience_filter := "All", job_type_filter := "All" }

/-- Inputs whose job-title filter matches rowEng. -/
def uiEng : Ui :=
  { job_title := "eng", location := "", industry := "",
    experience_filter := "All", job_type_filter := "All" }

/-- Environment: the live fetch raises, the fallback file holds rowEng. -/
def envC1 : Env :=
  { api := ApiResult.err "boom", cwd := "/app",
    fallbackFile := some (Except.ok [rowEng]),
    parseDate := fun _ => none, reSearch := literalSearch }

/-- Environment: the live fetch raises and no fallback file exists. -/
def envNoFile : Env :=
  { api := ApiResult.err "boom", cwd := "/app", fallbackFile := none,
    parseDate := fun _ => none, reSearch := literalSearch }

/-- Environment: the live fetch succeeds with one record. -/
def envLive : Env :=
  { api := ApiResult.ok (some [rawNone]), cwd := "/app",
    fallbackFile := none, parseDate := fun _ => none,
    reSearch := literalSearch }

/-- Environment: the live fetch succeeds with an empty "data" list. -/
def envEmptyData : Env :=
  { api := ApiResult.ok (some []), cwd := "/app",
    fallbackFile := some (Except.ok [rowEng]),
    parseDate := fun _ => none, reSearch := literalSearch }

/-! Helper lemmas about the branches of the click handler. -/

theorem fallbackBranch_written_nil (ui : Ui) (env : Env) (st : Option (List Row))
    (msgs : List Msg) (reqs : List String) :
    (fallbackBranch ui env st msgs reqs).written = [] := by
  unfold fallbackBranch
  cases henv : env.fallbackFile with
  | none => rfl
  | some x =>
    cases x with
    | error e => rfl
    | ok rows =>
      dsimp only
      split
      · rfl
      · split <;> rfl

theorem fallbackBranch_requests_eq (ui : Ui) (env : Env) (st : Option (List Row))
    (msgs : List Msg) (reqs : List String) :
    (fallbackBranch ui env st msgs reqs).requests = reqs := by
  unfold fallbackBranch
  cases henv : env.fallbackFile with
  | none => rfl
  | some x =>
    cases x with
    | error e => rfl
    | ok rows =>
      dsimp only
      split
      · rfl
      · split <;> rfl

theorem searchClick_requests_eq (ui : Ui) (env : Env) (st : Option (List Row)) :
    (searchClick ui env st).requests = [apiUrl] := by
  unfold searchClick
  cases hj : (fetch_jobs env.api).1 with
  | none => exact fallbackBranch_requests_eq ..
  | some js =>
    dsimp only
    split
    · exact fallbackBranch_requests_eq ..
    · rfl

/-! Claim theorems. -/

/-- C10: every run of fetch_job_details.py evaluates the headers dict of
line 13, whose value is the bare unassigned name
rEabbc4ElMakoLp2INsVxDOgdPSAYGB6, so it raises NameError before the HTTP
request of line 17 is issued (the request list of the run is empty);
whatever the response would have been, the result is the uncaught
NameError, hence neither the status-200 success branch nor the failure
branch is ever reached. -/
theorem c10_fjd_name_error (resp : HttpResp) :
    fetch_job_details_run resp =
      (FjdResult.uncaughtNameError headersKeyExprName, []) := rfl

/-- C8: one click of the search button issues exactly one HTTP request (the
single requests.get of fetch_jobs, app.py line 45), on the failure path as
well as on the success path, so a failed request is never re-issued within
the invocation; and a run of fetch_job_details.py issues no request at all
(its NameError precedes the GET).  Both entry points issue at most one
request per invocation. -/
theorem c8_single_request :
    (∀ ui env st, (searchClick ui env st).requests = [apiUrl]) ∧
    (∀ resp, (fetch_job_details_run resp).2 = []) :=
  ⟨searchClick_requests_eq, fun _ => rfl⟩

/-- C5 counterexample: the record fetch_jobs builds for the raw job with
every key absent has exactly the keys Job Title, Company, Location,
Posted, Industry, Experience, Job Type, Apply Link — no skills field of
any spelling — and that key list differs from the field list of the
specification (which names skills and omits Industry, Experience and Job
Type). -/
theorem c5_counterexample :
    (mkJobRecord rawNone).map Prod.fst = jobRecordKeys ∧
    "skills" ∉ (mkJobRecord rawNone).map Prod.fst ∧
    "Skills" ∉ (mkJobRecord rawNone).map Prod.fst ∧
    jobRecordKeys ≠ specJobPostingFields := by
  refine ⟨rfl, by decide, by decide, by decide⟩

/-- C5 amended: every job-posting record built by the program — held in
the session and written to the cache file — has exactly the eight fields
Job Title, Company, Location, Posted, Industry, Experience, Job Type and
Apply Link; there is no skills field, and no occupation records (title,
description, ESCO code) exist anywhere in this program. -/
theorem c5_record_fields (job : RawJob) :
    (mkJobRecord job).map Prod.fst = jobRecordKeys := rfl

/-- C9 counterexample: the body of fetch_jobs (app.py lines 44-64) makes no
find, find_all or BeautifulSoup call — it decodes JSON from a REST API
response — so the job fetch is not HTML scraping of job-board pages. -/
theorem c9_counterexample :
    "find" ∉ fetchJobsLibCalls ∧
    "find_all" ∉ fetchJobsLibCalls ∧
    "BeautifulSoup" ∉ fetchJobsLibCalls ∧
    "response.json" ∈ fetchJobsLibCalls := by
  refine ⟨by decide, by decide, by decide, by decide⟩

/-- C9 amended: the job-fetching operation obtains job listings by an HTTP
GET against the JSearch REST API (requests.get followed by response.json),
building one record per element of the decoded "data" list; no find or
find_all HTML-parsing call occurs in it. -/
theorem c9_fetch_mechanism :
    "requests.get" ∈ fetchJobsLibCalls ∧
    "response.json" ∈ fetchJobsLibCalls ∧
    apiUrl = "https://jsearch.p.rapidapi.com/search" ∧
    (∀ c, c ∈ fetchJobsLibCalls → c ≠ "find" ∧ c ≠ "find_all" ∧
      c ≠ "BeautifulSoup") ∧
    (∀ data, (fetch_jobs (ApiResult.ok data)).1 =
      some ((data.getD []).map mkJobRecord)) :=
  ⟨by decide, by decide, rfl, by decide, fun _ => rfl⟩

/-- C9 witness: the first library call of fetch_jobs, requests.get, is not
an HTML find call, obtained by applying the amended mechanism theorem at
the concrete element "requests.get". -/
theorem c9_fetch_mechanism_witness :
    "requests.get" ≠ "find" ∧ "requests.get" ≠ "find_all" ∧
    "requests.get" ≠ "BeautifulSoup" :=
  c9_fetch_mechanism.2.2.2.1 "requests.get" (by decide)

/-- C7: every record returned by fetch_jobs has exactly the eight keys
Job Title, Company, Location, Posted, Industry, Experience, Job Type and
Apply Link, in that order; a key absent from the raw API job object makes
the corresponding value the string "Not specified" (the experience level
also when the job_required_experience object exists but lacks
experience_level), and an absent apply link yields the anchor built around
the default href "#".  In particular no returned record has a missing
key. -/
theorem c7_record_defaults :
    (∀ api rec, rec ∈ ((fetch_jobs api).1.getD []) →
      rec.map Prod.fst = jobRecordKeys) ∧
    (∀ job : RawJob, job.job_title = none →
      (mkJobRecord job).lookup "Job Title" = some "Not specified") ∧
    (∀ job : RawJob, job.employer_name = none →
      (mkJobRecord job).lookup "Company" = some "Not specified") ∧
    (∀ job : RawJob, job.job_city = none →
      (mkJobRecord job).lookup "Location" = some "Not specified") ∧
    (∀ job : RawJob, job.job_posted_at_datetime_utc = none →
      (mkJobRecord job).lookup "Posted" = some "Not specified") ∧
    (∀ job : RawJob, job.job_industry = none →
      (mkJobRecord job).lookup "Industry" = some "Not specified") ∧
    (∀ job : RawJob, job.job_required_experience = none →
      (mkJobRecord job).lookup "Experience" = some "Not specified") ∧
    (∀ job : RawJob, ∀ e : RawExp, job.job_required_experience = some e →
      e.experience_level = none →
      (mkJobRecord job).lookup "Experience" = some "Not specified") ∧
    (∀ job : RawJob, job.job_employment_type = none →
      (mkJobRecord job).lookup "Job Type" = some "Not specified") ∧
    (∀ job : RawJob, job.job_apply_link = none →
      (mkJobRecord job).lookup "Apply Link" =
        some "<a href=\x27#\x27 target=\x27_blank\x27>Apply Here</a>") := by
  refine ⟨?_, ?_, ?_, ?_, ?_, ?_, ?_, ?_, ?_, ?_⟩
  · intro api rec hmem
    cases api with
    | err e => cases hmem
    | ok data =>
      rcases List.mem_map.mp hmem with ⟨job, _, rfl⟩
      rfl
  · intro job h; cases job; subst h; rfl
  · intro job h; cases job; subst h; rfl
  · intro job h; cases job; subst h; rfl
  · intro job h; cases job; subst h; rfl
  · intro job h; cases job; subst h; rfl
  · intro job h; cases job; subst h; rfl
  · intro job e h he; cases job; cases e; subst h; subst he; rfl
  · intro job h; cases job; subst h; rfl
  · intro job h; cases job; subst h; rfl

/-- C7 witness: the record built for the all-absent raw job is a member of
the result of fetch_jobs on a one-element "data" list; by the theorem its
key list is the eight expected keys, and its Experience value is the
default. -/
theorem c7_record_defaults_witness :
    (mkJobRecord rawNone).map Prod.fst = jobRecordKeys ∧
    (mkJobRecord rawNone).lookup "Experience" = some "Not specified" :=
  ⟨c7_record_defaults.1 (ApiResult.ok (some [rawNone])) (mkJobRecord rawNone)
      (by decide),
   c7_record_defaults.2.2.2.2.2.2.1 rawNone rfl⟩

/-- C1 counterexample: a click on which the live fetch raises (fetch_jobs
returns None) and the fallback file exists and holds one row, but the
job-title filter "zzz" matches nothing: the cleaned, filtered contents
(the empty table) do not become the displayed result — the session
variable stays at its prior value None — and the warning about no
matching fallback jobs is shown. -/
theorem c1_counterexample :
    (fetch_jobs envC1.api).1 = none ∧
    envC1.fallbackFile = some (Except.ok [rowEng]) ∧
    applyFilters envC1.reSearch uiZzz (fallbackClean [rowEng]) =
      Except.ok [] ∧
    (searchClick uiZzz envC1 none).session = none ∧
    (searchClick uiZzz envC1 none).session ≠ some [] ∧
    (searchClick uiZzz envC1 none).msgs =
      [Msg.error "Error fetching jobs: boom",
       Msg.warning "😕 No matching jobs found in fallback."] := by
  refine ⟨rfl, rfl, rfl, by decide, by decide, by decide⟩

/-- C1 amended: on a click on which the live fetch fails (fetch_jobs
returns None): if the fallback file does not exist, only a warning is
shown and the displayed data is unchanged; if it exists and reads cleanly
and every active filter pattern compiles, the cleaned, filtered contents
become the displayed result when they are non-empty, and when the filters
leave nothing a warning is shown and the displayed data is left
unchanged; an active filter pattern that does not compile instead raises
re.error uncaught, leaving the displayed data unchanged. -/
theorem c1_fallback_behavior (ui : Ui) (env : Env) (st : Option (List Row))
    (hfail : (fetch_jobs env.api).1 = none) :
    (env.fallbackFile = none →
      (searchClick ui env st).session = st ∧
      (searchClick ui env st).msgs = (fetch_jobs env.api).2 ++
        [Msg.warning "⚠️ No fallback file found."]) ∧
    (∀ rows, env.fallbackFile = some (Except.ok rows) →
      (∀ filtered,
        applyFilters env.reSearch ui (fallbackClean rows) =
          Except.ok filtered →
        (filtered ≠ [] →
          (searchClick ui env st).session = some filtered ∧
          (searchClick ui env st).msgs = (fetch_jobs env.api).2 ++
            [Msg.success "⚠️ Loaded from fallback — results may be outdated but cleaned and filtered."]) ∧
        (filtered = [] →
          (searchClick ui env st).session = st ∧
          (searchClick ui env st).msgs = (fetch_jobs env.api).2 ++
            [Msg.warning "😕 No matching jobs found in fallback."])) ∧
      (∀ e,
        applyFilters env.reSearch ui (fallbackClean rows) =
          Except.error e →
        (searchClick ui env st).session = st ∧
        (searchClick ui env st).uncaught = some e)) := by
  have hs : searchClick ui env st =
      fallbackBranch ui env st (fetch_jobs env.api).2 [apiUrl] := by
    unfold searchClick
    rw [hfail]
  refine ⟨?_, ?_⟩
  · intro hnone
    rw [hs]
    unfold fallbackBranch
    rw [hnone]
    exact ⟨rfl, rfl⟩
  · intro rows hrows
    refine ⟨?_, ?_⟩
    · intro filtered haf
      refine ⟨?_, ?_⟩
      · intro hne
        rw [hs]
        unfold fallbackBranch
        rw [hrows]
        dsimp only
        rw [haf]
        dsimp only
        rw [if_neg (by simpa [List.isEmpty_iff] using hne)]
        exact ⟨rfl, rfl⟩
      · intro hemp
        rw [hs]
        unfold fallbackBranch
        rw [hrows]
        dsimp only
        rw [haf]
        dsimp only
        rw [if_pos (by simpa [List.isEmpty_iff] using hemp)]
        exact ⟨rfl, rfl⟩
    · intro e haf
      rw [hs]
      unfold fallbackBranch
      rw [hrows]
      dsimp only
      rw [haf]
      exact ⟨rfl, rfl⟩

/-- C1 witness: with the fetch raising and the fallback file holding one
row that the (literal, hence compiling) job-title filter "eng" matches,
the cleaned, filtered fallback contents become the displayed result. -/
theorem c1_fallback_behavior_witness :
    (searchClick uiEng envC1 none).session =
      some (fallbackClean [rowEng]) :=
  ((((c1_fallback_behavior uiEng envC1 none rfl).2 [rowEng] rfl).1
      (fallbackClean [rowEng]) rfl).1 (by decide)).1

/-- Helper: the session after the fallback branch is either the prior
value, or the non-empty cleaned and filtered contents of the fallback
file, the filters all having compiled. -/
theorem fallbackBranch_session_cases (ui : Ui) (env : Env)
    (st : Option (List Row)) (msgs : List Msg) (reqs : List String) :
    (fallbackBranch ui env st msgs reqs).session = st ∨
    ∃ rows filtered, env.fallbackFile = some (Except.ok rows) ∧
      applyFilters env.reSearch ui (fallbackClean rows) =
        Except.ok filtered ∧
      filtered ≠ [] ∧
      (fallbackBranch ui env st msgs reqs).session = some filtered := by
  unfold fallbackBranch
  cases henv : env.fallbackFile with
  | none => exact Or.inl rfl
  | some x =>
    cases x with
    | error e => exact Or.inl rfl
    | ok rows =>
      dsimp only
      cases haf : applyFilters env.reSearch ui (fallbackClean rows) with
      | error e => exact Or.inl rfl
      | ok filtered =>
        cases filtered with
        | nil => exact Or.inl rfl
        | cons r rs =>
          exact Or.inr ⟨rows, r :: rs, rfl, haf, List.cons_ne_nil r rs, rfl⟩

/-- C3: on an API response whose "data" field is the empty list,
fetch_jobs returns the empty list (not None), and the click handler treats
it exactly like a failed fetch: the `if jobs:` of app.py line 72 is false
on the empty list, so the handler runs the fallback branch, writes no
file, and never stores the empty live result — the session either keeps
its prior value or receives a non-empty fallback table. -/
theorem c3_empty_data_fallback :
    (fetch_jobs (ApiResult.ok (some []))).1 = some [] ∧
    (∀ ui env st, env.api = ApiResult.ok (some []) →
      searchClick ui env st =
        fallbackBranch ui env st (fetch_jobs env.api).2 [apiUrl] ∧
      (searchClick ui env st).written = [] ∧
      ((searchClick ui env st).session = st ∨
        ∃ r rs, (searchClick ui env st).session = some (r :: rs))) := by
  refine ⟨rfl, ?_⟩
  intro ui env st h
  have hs : searchClick ui env st =
      fallbackBranch ui env st (fetch_jobs env.api).2 [apiUrl] := by
    unfold searchClick
    rw [h]
    rfl
  refine ⟨hs, ?_, ?_⟩
  · rw [hs]
    exact fallbackBranch_written_nil ..
  · rw [hs]
    rcases fallbackBranch_session_cases ui env st (fetch_jobs env.api).2
        [apiUrl] with hst | ⟨rows, filtered, _, _, hne, hsess⟩
    · exact Or.inl hst
    · cases filtered with
      | nil => exact absurd rfl hne
      | cons r rs => exact Or.inr ⟨r, rs, hsess⟩

/-- C3 witness: with the empty "data" list, the fetch succeeded and one
fallback row exists, the handler still writes no file. -/
theorem c3_empty_data_fallback_witness :
    (searchClick uiZzz envEmptyData none).written = [] :=
  ((c3_empty_data_fallback.2 uiZzz envEmptyData none rfl).2).1

/-- C4: the session variable job_data is the only state the click handler
updates in memory; it is left unchanged when the click has no successful
action — neither a live fetch with records nor a fallback load with a
non-empty filtered table — and on each successful action it is overwritten
with a value that does not depend on its prior contents. -/
theorem c4_session_frame (ui : Ui) (env : Env) :
    (∀ st, ¬ liveOk env → ¬ fallbackOk ui env →
      (searchClick ui env st).session = st) ∧
    ((liveOk env ∨ fallbackOk ui env) → ∀ st st',
      (searchClick ui env st).session = (searchClick ui env st').session ∧
      ∃ d, (searchClick ui env st).session = some d) := by
  constructor
  · intro st hl hf
    cases hj : (fetch_jobs env.api).1 with
    | none =>
      have hs : searchClick ui env st =
          fallbackBranch ui env st (fetch_jobs env.api).2 [apiUrl] := by
        unfold searchClick
        rw [hj]
      rw [hs]
      rcases fallbackBranch_session_cases ui env st (fetch_jobs env.api).2
          [apiUrl] with hst | ⟨rows, filtered, hrow, haf, hne, _⟩
      · exact hst
      · exact absurd ⟨rows, filtered, hrow, haf, hne⟩ hf
    | some js =>
      cases js with
      | nil =>
        have hs : searchClick ui env st =
            fallbackBranch ui env st (fetch_jobs env.api).2 [apiUrl] := by
          unfold searchClick
          rw [hj]
          rfl
        rw [hs]
        rcases fallbackBranch_session_cases ui env st (fetch_jobs env.api).2
            [apiUrl] with hst | ⟨rows, filtered, hrow, haf, hne, _⟩
        · exact hst
        · exact absurd ⟨rows, filtered, hrow, haf, hne⟩ hf
      | cons j js => exact absurd ⟨j, js, hj⟩ hl
  · intro h st st'
    cases hj : (fetch_jobs env.api).1 with
    | none =>
      have hs : ∀ s, searchClick ui env s =
          fallbackBranch ui env s (fetch_jobs env.api).2 [apiUrl] := by
        intro s
        unfold searchClick
        rw [hj]
      rcases h with ⟨j, js, hj'⟩ | ⟨rows, filtered, hrow, haf, hne⟩
      · rw [hj] at hj'
        cases hj'
      · have hv : ∀ s, (searchClick ui env s).session = some filtered := by
          intro s
          rw [hs s]
          unfold fallbackBranch
          rw [hrow]
          dsimp only
          rw [haf]
          dsimp only
          rw [if_neg (by simpa [List.isEmpty_iff] using hne)]
        rw [hv st, hv st']
        exact ⟨rfl, _, rfl⟩
    | some js =>
      cases js with
      | nil =>
        have hs : ∀ s, searchClick ui env s =
            fallbackBranch ui env s (fetch_jobs env.api).2 [apiUrl] := by
          intro s
          unfold searchClick
          rw [hj]
          rfl
        rcases h with ⟨j, js', hj'⟩ | ⟨rows, filtered, hrow, haf, hne⟩
        · rw [hj] at hj'
          cases hj'
        · have hv : ∀ s, (searchClick ui env s).session = some filtered := by
            intro s
            rw [hs s]
            unfold fallbackBranch
            rw [hrow]
            dsimp only
            rw [haf]
            dsimp only
            rw [if_neg (by simpa [List.isEmpty_iff] using hne)]
          rw [hv st, hv st']
          exact ⟨rfl, _, rfl⟩
      | cons j js =>
        have hv : ∀ s, (searchClick ui env s).session =
            some (liveClean env.parseDate (j :: js)) := by
          intro s
          unfold searchClick
          rw [hj]
          dsimp only
          rw [if_neg (by simp)]
          rfl
        rw [hv st, hv st']
        exact ⟨rfl, _, rfl⟩

/-- C4 witness: with the fetch raising and the fallback filter matching
nothing, the session keeps its prior value. -/
theorem c4_session_frame_witness :
    (searchClick uiZzz envC1 (some [rowEng])).session = some [rowEng] :=
  (c4_session_frame uiZzz envC1).1 (some [rowEng])
    (by rintro ⟨j, js, hj⟩; cases hj)
    (by
      rintro ⟨rows, filtered, hrow, haf, hne⟩
      injection hrow with h1
      injection h1 with h2
      subst h2
      rw [show applyFilters envC1.reSearch uiZzz (fallbackClean [rowEng]) =
          Except.ok ([] : List Row) from rfl] at haf
      injection haf with h3
      subst h3
      exact hne rfl)

/-- C6: a click writes at most one file, and any file it writes is
fallback_jobs.csv joined to the current working directory; a file is
written only when the live fetch succeeded with at least one record (the
df.to_csv of app.py line 86 sits in the `if jobs:` branch). -/
theorem c6_single_cache_file (ui : Ui) (env : Env) (st : Option (List Row)) :
    ((searchClick ui env st).written = [] ∨
      ∃ d, (searchClick ui env st).written =
        [(pathJoin env.cwd fallbackFileName, d)]) ∧
    ((searchClick ui env st).written ≠ [] → liveOk env) := by
  cases hj : (fetch_jobs env.api).1 with
  | none =>
    have hs : searchClick ui env st =
        fallbackBranch ui env st (fetch_jobs env.api).2 [apiUrl] := by
      unfold searchClick
      rw [hj]
    rw [hs, fallbackBranch_written_nil]
    exact ⟨Or.inl rfl, fun hne => absurd rfl hne⟩
  | some js =>
    cases js with
    | nil =>
      have hs : searchClick ui env st =
          fallbackBranch ui env st (fetch_jobs env.api).2 [apiUrl] := by
        unfold searchClick
        rw [hj]
        rfl
      rw [hs, fallbackBranch_written_nil]
      exact ⟨Or.inl rfl, fun hne => absurd rfl hne⟩
    | cons j js =>
      have hs : searchClick ui env st =
          liveBranch env (j :: js) (fetch_jobs env.api).2 [apiUrl] := by
        unfold searchClick
        rw [hj]
        dsimp only
        rw [if_neg (by simp)]
      rw [hs]
      exact ⟨Or.inr ⟨liveClean env.parseDate (j :: js), rfl⟩,
        fun _ => ⟨j, js, hj⟩⟩

/-- C6 witness: with a successful one-record fetch, the click writes a
file, so the live fetch indeed succeeded. -/
theorem c6_single_cache_file_witness : liveOk envLive :=
  (c6_single_cache_file uiZzz envLive none).2 (by decide)

end JobSearchApp
